import Mathlib

/-!
# Polymesh docker probes

A shallow embedding of the two command-line probes shipped in the Polymesh
docker image:

* `.docker/src/health-check/health-check.go` (the Health Prober),
* `.docker/src/rotate-keys/rotate-keys.go` (the Key Rotator).

Both programs are straight-line Go code around one or two blocking network
calls.  A Go function body is embedded as a computation over the process
state (`Proc`: the bytes written to standard output so far and the list of
external effects performed so far) that either returns, calls `os.Exit`, or
panics.  The outcome of every network call is an explicit input of the
embedded function, so a statement quantified over these inputs is a
statement about every behaviour of the environment.
-/

namespace Polymesh

/-! ## Go runtime model -/

/-- A non-nil Go `error` value as far as the probes can observe it: whether its
dynamic type is `jsonrpc2.Error` (what the type assertion `err.(jsonrpc2.Error)`
tests) and the text its `Error()` method returns. -/
structure error where
  isJsonrpc2Error : Bool
  text : String
deriving DecidableEq

/-- An IEEE-754 binary64 value, carried by its bit pattern.  The probes never
compute with it. -/
abbrev float64 := Nat

/-- External effects a probe performs, in program order. -/
inductive Event where
  | jsonrpcRequest (url method : String) (params : List float64)
  | httpGet (url : String)
  | readAll
  | bodyClose
deriving DecidableEq

/-- Observable process state while the program runs. -/
structure Proc where
  stdout : String
  events : List Event
deriving DecidableEq

/-- How a Go function body ends: it returns a value, terminates the process
through `os.Exit`, or panics. -/
inductive Outcome (α : Type) where
  | ret (a : α) (p : Proc)
  | exit (code : Int) (p : Proc)
  | panicked (p : Proc)
deriving DecidableEq

/-- A Go computation over the process state. -/
def Go (α : Type) : Type := Proc → Outcome α

/-- Return a value without touching the process state. -/
def Go.pure {α : Type} (a : α) : Go α := fun p => Outcome.ret a p

/-- Sequencing: `os.Exit` and panics cut the rest of the program off. -/
def Go.bind {α β : Type} (m : Go α) (f : α → Go β) : Go β := fun p =>
  match m p with
  | Outcome.ret a q => f a q
  | Outcome.exit c q => Outcome.exit c q
  | Outcome.panicked q => Outcome.panicked q

instance : Monad Go where
  pure := Go.pure
  bind := Go.bind

/-- Go `defer d` followed by `body`: `d` runs when `body` returns or panics, and
does not run when `body` ends the process through `os.Exit`. -/
def Go.defer {α : Type} (d : Go Unit) (body : Go α) : Go α := fun p =>
  match body p with
  | Outcome.ret a q =>
    match d q with
    | Outcome.ret _ q' => Outcome.ret a q'
    | Outcome.exit c q' => Outcome.exit c q'
    | Outcome.panicked q' => Outcome.panicked q'
  | Outcome.exit c q => Outcome.exit c q
  | Outcome.panicked q =>
    match d q with
    | Outcome.exit c q' => Outcome.exit c q'
    | Outcome.ret _ q' => Outcome.panicked q'
    | Outcome.panicked q' => Outcome.panicked q'

/-- Record an external effect. -/
def Go.emit (e : Event) : Go Unit := fun p =>
  Outcome.ret () { p with events := p.events ++ [e] }

/-- Go slice indexing `args[i]`: a run-time panic when `i` is out of range. -/
def Go.index (args : List String) (i : Nat) : Go String := fun p =>
  match args[i]? with
  | some a => Outcome.ret a p
  | none => Outcome.panicked p

/-- Go `os.Exit(code)`: the process ends at once, deferred calls do not run. -/
def os.Exit {α : Type} (code : Int) : Go α := fun p => Outcome.exit code p

/-- An operand of `fmt.Printf` / `fmt.Println`. -/
inductive fmt.Operand where
  | string (s : String)
  | int (n : Int)
  | error (e : Option error)
deriving DecidableEq

/-- Text of an operand under the `%v` verb: a string verbatim, an `int` in
decimal, an `error` through its `Error()` method (`<nil>` for a nil one). -/
def fmt.Operand.v : fmt.Operand → String
  | fmt.Operand.string s => s
  | fmt.Operand.int n => toString n
  | fmt.Operand.error (some e) => e.text
  | fmt.Operand.error none => "<nil>"

/-- Expansion of a format: every `%v` takes the next operand, all other text is
copied, and a verb with no operand left prints as `%!v(MISSING)`.  (`%v` is the
only verb the two programs use, and they never pass more operands than verbs.) -/
def fmt.doPrintf : List Char → List fmt.Operand → List Char
  | [], _ => []
  | [c], _ => [c]
  | c :: d :: rest, as =>
    if c = '%' ∧ d = 'v' then
      match as with
      | a :: as' => a.v.data ++ fmt.doPrintf rest as'
      | [] => "%!v(MISSING)".data ++ fmt.doPrintf rest []
    else c :: fmt.doPrintf (d :: rest) as

/-- Go `fmt.Sprintf`. -/
def fmt.Sprintf (format : String) (as : List fmt.Operand) : String :=
  String.mk (fmt.doPrintf format.data as)

/-- Go `fmt.Printf`: formatted text goes straight to standard output. -/
def fmt.Printf (format : String) (as : List fmt.Operand) : Go Unit := fun p =>
  Outcome.ret () { p with stdout := p.stdout ++ fmt.Sprintf format as }

/-- Go `fmt.Println` of one operand: its default format and a newline. -/
def fmt.Println (a : fmt.Operand) : Go Unit := fun p =>
  Outcome.ret () { p with stdout := p.stdout ++ a.v ++ "\n" }

/-- The type assertion `_, ok := err.(jsonrpc2.Error)`. -/
def jsonrpc2.isError : Option error → Bool
  | some e => e.isJsonrpc2Error
  | none => false

/-- What one `jsonrpc2.Client.Request` call leaves behind: the returned `err`
(nil is `none`) and the value of the result variable `r` after the call. -/
structure jsonrpc2.Reply (α : Type) where
  err : Option error
  r : α
deriving DecidableEq

/-- Go `c.Request(nil, url, method, params, &r)` against an endpoint whose
answer is `reply`. -/
def jsonrpc2.Client.Request {α : Type} (reply : jsonrpc2.Reply α)
    (url method : String) (params : List float64) : Go (jsonrpc2.Reply α) := fun p =>
  Outcome.ret reply { p with events := p.events ++ [Event.jsonrpcRequest url method params] }

/-- The part of `http.Response` the prober looks at: the status code and what
reading the body to its end gives. -/
structure http.Response where
  StatusCode : Int
  Body : Except error String


/-- Go `http.Get(url)` against an endpoint whose answer is `answer`
(`Except.error` when no response was obtained). -/
def http.Get (answer : Except error http.Response) (url : String) :
    Go (Except error http.Response) := fun p =>
  Outcome.ret answer { p with events := p.events ++ [Event.httpGet url] }

/-- Go `ioutil.ReadAll(resp.Body)`. -/
def ioutil.ReadAll (body : Except error String) : Go (Except error String) := fun p =>
  Outcome.ret body { p with events := p.events ++ [Event.readAll] }

/-- What the operating system sees of a finished process. -/
structure Result where
  code : Int
  stdout : String
  events : List Event
deriving DecidableEq

/-- Run a Go `main` from a fresh process: returning from `main` is exit status
0, an uncaught panic is exit status 2 (its report goes to standard error). -/
def Go.run (m : Go Unit) : Result :=
  match m { stdout := "", events := [] } with
  | Outcome.ret _ p => { code := 0, stdout := p.stdout, events := p.events }
  | Outcome.exit c p => { code := c, stdout := p.stdout, events := p.events }
  | Outcome.panicked p => { code := 2, stdout := p.stdout, events := p.events }

/-- A one-line text: after dropping one final line break, if there is one, what
is left is not empty and has no line break in it. -/
def oneLine (s : String) : Bool :=
  let body := if s.data.getLast? = some '\n' then s.data.dropLast else s.data
  !body.isEmpty && !body.contains '\n'

/-! ## health-check.go -/

namespace HealthCheck

/-- Go `type systemHealth struct`. -/
structure systemHealth where
  IsSyncing : Bool
  Peers : float64
  ShouldHavePeers : Bool
deriving DecidableEq

/-- Go `func testJSONRPC(readinessCheck bool)`. -/
def testJSONRPC (rpc : jsonrpc2.Reply systemHealth) (readinessCheck : Bool) : Go Unit := do
  let params : List float64 := []
  let reply ← jsonrpc2.Client.Request rpc "http://localhost:9933" "system_health" params
  let err := reply.err
  let r := reply.r
  if jsonrpc2.isError err then
    fmt.Printf "Error checking jsonrpc port. %v\n" [fmt.Operand.error err]
    os.Exit 1
  if err ≠ none then
    fmt.Printf "Error checking jsonrpc port! %v\n" [fmt.Operand.error err]
    os.Exit 1
  if r.IsSyncing && readinessCheck then
    fmt.Printf "Node is syncing" []
    os.Exit 1

/-- Go `func testPrometheus()`. -/
def testPrometheus (metrics : Except error http.Response) : Go Unit := do
  match ← http.Get metrics "http://localhost:9615/metrics" with
  | Except.error err =>
    fmt.Printf "Error checking prometheus exporter! %v\n" [fmt.Operand.error (some err)]
    os.Exit 1
  | Except.ok resp =>
    Go.defer (Go.emit Event.bodyClose) do
      match ← ioutil.ReadAll resp.Body with
      | Except.error err2 =>
        fmt.Printf "Error reading prometheus metrics! %v\n" [fmt.Operand.error (some err2)]
        os.Exit 1
      | Except.ok _ =>
        if resp.StatusCode > 299 then
          fmt.Printf "Response status is %v" [fmt.Operand.int resp.StatusCode]
          os.Exit 1

/-- The raw string literal of `printHelp`. -/
def helpFormat : String :=
  "Use:\n    %v [command]\n    Commands:\n    * help: print this help\n    * liveness: return 0 if localhost polymesh has both the RPC (9933) and prometheus (9615) ports open and responsive, 1 otherwise\n    * readiness: return 0 if liveness check passes and the node is not syncing, 1 otherwise\n    "

/-- Go `func printHelp(progname string)`. -/
def printHelp (progname : String) : Go Unit :=
  fmt.Printf helpFormat [fmt.Operand.string progname]

/-- Go `func main()` of the Health Prober, with `os.Args = args`. -/
def main (args : List String) (rpc : jsonrpc2.Reply systemHealth)
    (metrics : Except error http.Response) : Go Unit := do
  if args.length ≠ 2 then
    printHelp (← Go.index args 0)
    os.Exit 1
  if (← Go.index args 1) = "liveness" then
    testJSONRPC rpc false
  else if (← Go.index args 1) = "readiness" then
    testJSONRPC rpc true
  else if (← Go.index args 1) = "help" then
    printHelp (← Go.index args 0)
    os.Exit 0
  else
    printHelp (← Go.index args 0)
    os.Exit 1
  testPrometheus metrics

/-- One run of the Health Prober. -/
def run (args : List String) (rpc : jsonrpc2.Reply systemHealth)
    (metrics : Except error http.Response) : Result :=
  Go.run (main args rpc metrics)

end HealthCheck

/-! ## rotate-keys.go -/

namespace RotateKeys

/-- Go `func main()` of the Key Rotator. -/
def main (rpc : jsonrpc2.Reply String) : Go Unit := do
  let params : List float64 := []
  let reply ← jsonrpc2.Client.Request rpc "http://localhost:9933" "author_rotateKeys" params
  let err := reply.err
  let r := reply.r
  if jsonrpc2.isError err then
    fmt.Printf "Error checking jsonrpc port. %v\n" [fmt.Operand.error err]
    os.Exit 1
  if err ≠ none then
    fmt.Printf "Error checking jsonrpc port! %v\n" [fmt.Operand.error err]
    os.Exit 1
  fmt.Println (fmt.Operand.string r)

/-- One run of the Key Rotator. -/
def run (rpc : jsonrpc2.Reply String) : Result :=
  Go.run (main rpc)

end RotateKeys

/-! ## Formatting lemmas -/

theorem sprintf_jsonrpc_dot (e : error) :
    fmt.Sprintf "Error checking jsonrpc port. %v\n" [fmt.Operand.error (some e)]
      = "Error checking jsonrpc port. " ++ e.text ++ "\n" := by
  apply String.ext
  simp [fmt.Sprintf, fmt.doPrintf, fmt.Operand.v]

theorem sprintf_jsonrpc_bang (e : error) :
    fmt.Sprintf "Error checking jsonrpc port! %v\n" [fmt.Operand.error (some e)]
      = "Error checking jsonrpc port! " ++ e.text ++ "\n" := by
  apply String.ext
  simp [fmt.Sprintf, fmt.doPrintf, fmt.Operand.v]

theorem sprintf_exporter (e : error) :
    fmt.Sprintf "Error checking prometheus exporter! %v\n" [fmt.Operand.error (some e)]
      = "Error checking prometheus exporter! " ++ e.text ++ "\n" := by
  apply String.ext
  simp [fmt.Sprintf, fmt.doPrintf, fmt.Operand.v]

theorem sprintf_metrics (e : error) :
    fmt.Sprintf "Error reading prometheus metrics! %v\n" [fmt.Operand.error (some e)]
      = "Error reading prometheus metrics! " ++ e.text ++ "\n" := by
  apply String.ext
  simp [fmt.Sprintf, fmt.doPrintf, fmt.Operand.v]

theorem sprintf_status (n : Int) :
    fmt.Sprintf "Response status is %v" [fmt.Operand.int n]
      = "Response status is " ++ toString n := by
  apply String.ext
  simp [fmt.Sprintf, fmt.doPrintf, fmt.Operand.v]

set_option maxRecDepth 100000 in
theorem sprintf_help (progname : String) :
    fmt.Sprintf HealthCheck.helpFormat [fmt.Operand.string progname]
      = "Use:\n    " ++ progname ++ " [command]\n    Commands:\n    * help: print this help\n    * liveness: return 0 if localhost polymesh has both the RPC (9933) and prometheus (9615) ports open and responsive, 1 otherwise\n    * readiness: return 0 if liveness check passes and the node is not syncing, 1 otherwise\n    " := by
  apply String.ext
  simp [fmt.Sprintf, fmt.doPrintf, fmt.Operand.v, HealthCheck.helpFormat]

theorem oneLine_terminated_iff (a t : String) (ha : a.data ≠ []) (hna : '\n' ∉ a.data) :
    oneLine (a ++ t ++ "\n") = true ↔ '\n' ∉ t.data := by
  have hd : (a ++ t ++ "\n").data = (a.data ++ t.data) ++ ['\n'] := by
    simp [String.data_append]
  simp only [oneLine, hd, List.getLast?_concat, List.dropLast_concat, if_true]
  simp [ha, hna]

namespace HealthCheck

theorem run_liveness (prog : String) (rpc : jsonrpc2.Reply systemHealth)
    (metrics : Except error http.Response) :
    run [prog, "liveness"] rpc metrics
      = Go.run (testJSONRPC rpc false >>= fun _ => testPrometheus metrics) := rfl

theorem run_readiness (prog : String) (rpc : jsonrpc2.Reply systemHealth)
    (metrics : Except error http.Response) :
    run [prog, "readiness"] rpc metrics
      = Go.run (testJSONRPC rpc true >>= fun _ => testPrometheus metrics) := rfl

/-- The JSON-RPC call failed: the diagnostic is printed and the process exits. -/
theorem check_rpc_error (e : error) (r : systemHealth) (rc : Bool)
    (metrics : Except error http.Response) :
    Go.run (testJSONRPC ⟨some e, r⟩ rc >>= fun _ => testPrometheus metrics)
      = ⟨1, (if e.isJsonrpc2Error then "Error checking jsonrpc port. "
              else "Error checking jsonrpc port! ") ++ e.text ++ "\n",
          [Event.jsonrpcRequest "http://localhost:9933" "system_health" []]⟩ := by
  obtain ⟨b, t⟩ := e
  cases b
  · have h : Go.run (testJSONRPC ⟨some ⟨false, t⟩, r⟩ rc >>= fun _ => testPrometheus metrics)
        = ⟨1, "" ++ fmt.Sprintf "Error checking jsonrpc port! %v\n"
                [fmt.Operand.error (some ⟨false, t⟩)],
            [Event.jsonrpcRequest "http://localhost:9933" "system_health" []]⟩ := rfl
    rw [h, sprintf_jsonrpc_bang]
    simp
  · have h : Go.run (testJSONRPC ⟨some ⟨true, t⟩, r⟩ rc >>= fun _ => testPrometheus metrics)
        = ⟨1, "" ++ fmt.Sprintf "Error checking jsonrpc port. %v\n"
                [fmt.Operand.error (some ⟨true, t⟩)],
            [Event.jsonrpcRequest "http://localhost:9933" "system_health" []]⟩ := rfl
    rw [h, sprintf_jsonrpc_dot]
    simp

/-- The node is syncing and the check is a readiness check. -/
theorem check_syncing (peers : float64) (shp : Bool) (metrics : Except error http.Response) :
    Go.run (testJSONRPC ⟨none, ⟨true, peers, shp⟩⟩ true >>= fun _ => testPrometheus metrics)
      = ⟨1, "Node is syncing",
          [Event.jsonrpcRequest "http://localhost:9933" "system_health" []]⟩ := rfl

/-- The JSON-RPC check passed and the metrics GET got no response. -/
theorem check_get_error (r : systemHealth) (rc : Bool) (h : (r.IsSyncing && rc) = false)
    (err : error) :
    Go.run (testJSONRPC ⟨none, r⟩ rc >>= fun _ => testPrometheus (Except.error err))
      = ⟨1, "Error checking prometheus exporter! " ++ err.text ++ "\n",
          [Event.jsonrpcRequest "http://localhost:9933" "system_health" [],
           Event.httpGet "http://localhost:9615/metrics"]⟩ := by
  have h' : Go.run (testJSONRPC ⟨none, r⟩ rc >>= fun _ => testPrometheus (Except.error err))
      = ⟨1, "" ++ fmt.Sprintf "Error checking prometheus exporter! %v\n"
              [fmt.Operand.error (some err)],
          [Event.jsonrpcRequest "http://localhost:9933" "system_health" [],
           Event.httpGet "http://localhost:9615/metrics"]⟩ := by
    obtain ⟨s, pe, sh⟩ := r
    cases s <;> cases rc <;> first | rfl | simp at h
  rw [h', sprintf_exporter]
  simp

/-- The JSON-RPC check passed, the GET got a response, reading its body failed. -/
theorem check_read_error (r : systemHealth) (rc : Bool) (h : (r.IsSyncing && rc) = false)
    (status : Int) (err2 : error) :
    Go.run (testJSONRPC ⟨none, r⟩ rc >>= fun _ =>
        testPrometheus (Except.ok ⟨status, Except.error err2⟩))
      = ⟨1, "Error reading prometheus metrics! " ++ err2.text ++ "\n",
          [Event.jsonrpcRequest "http://localhost:9933" "system_health" [],
           Event.httpGet "http://localhost:9615/metrics", Event.readAll]⟩ := by
  have h' : Go.run (testJSONRPC ⟨none, r⟩ rc >>= fun _ =>
        testPrometheus (Except.ok ⟨status, Except.error err2⟩))
      = ⟨1, "" ++ fmt.Sprintf "Error reading prometheus metrics! %v\n"
              [fmt.Operand.error (some err2)],
          [Event.jsonrpcRequest "http://localhost:9933" "system_health" [],
           Event.httpGet "http://localhost:9615/metrics", Event.readAll]⟩ := by
    obtain ⟨s, pe, sh⟩ := r
    cases s <;> cases rc <;> first | rfl | simp at h
  rw [h', sprintf_metrics]
  simp

theorem testJSONRPC_pass (r : systemHealth) (rc : Bool) (h : (r.IsSyncing && rc) = false)
    (p : Proc) :
    testJSONRPC ⟨none, r⟩ rc p
      = Outcome.ret () ⟨p.stdout,
          p.events ++ [Event.jsonrpcRequest "http://localhost:9933" "system_health" []]⟩ := by
  obtain ⟨s, pe, sh⟩ := r
  cases s <;> cases rc <;> first | rfl | simp at h

theorem testPrometheus_body_read (status : Int) (body : String) (p : Proc) :
    testPrometheus (Except.ok ⟨status, Except.ok body⟩) p
      = if status > 299 then
          Outcome.exit 1 ⟨p.stdout ++ fmt.Sprintf "Response status is %v" [fmt.Operand.int status],
            p.events ++ [Event.httpGet "http://localhost:9615/metrics", Event.readAll]⟩
        else
          Outcome.ret () ⟨p.stdout,
            p.events ++ [Event.httpGet "http://localhost:9615/metrics", Event.readAll,
              Event.bodyClose]⟩ := by
  by_cases h : status > 299 <;>
    simp [testPrometheus, bind, Go.bind, http.Get, ioutil.ReadAll, Go.defer, fmt.Printf, os.Exit,
      pure, Go.pure, Go.emit, h]

/-- Both calls succeeded and the status code is above 299. -/
theorem check_bad_status (r : systemHealth) (rc : Bool) (h : (r.IsSyncing && rc) = false)
    (status : Int) (body : String) (hs : status > 299) :
    Go.run (testJSONRPC ⟨none, r⟩ rc >>= fun _ =>
        testPrometheus (Except.ok ⟨status, Except.ok body⟩))
      = ⟨1, "Response status is " ++ toString status,
          [Event.jsonrpcRequest "http://localhost:9933" "system_health" [],
           Event.httpGet "http://localhost:9615/metrics", Event.readAll]⟩ := by
  show Go.run (Go.bind _ _) = _
  simp [Go.run, Go.bind, testJSONRPC_pass r rc h, testPrometheus_body_read, hs, sprintf_status]

/-- Both calls succeeded and the status code is at most 299. -/
theorem check_pass (r : systemHealth) (rc : Bool) (h : (r.IsSyncing && rc) = false)
    (status : Int) (body : String) (hs : ¬ status > 299) :
    Go.run (testJSONRPC ⟨none, r⟩ rc >>= fun _ =>
        testPrometheus (Except.ok ⟨status, Except.ok body⟩))
      = ⟨0, "",
          [Event.jsonrpcRequest "http://localhost:9933" "system_health" [],
           Event.httpGet "http://localhost:9615/metrics", Event.readAll, Event.bodyClose]⟩ := by
  show Go.run (Go.bind _ _) = _
  simp [Go.run, Go.bind, testJSONRPC_pass r rc h, testPrometheus_body_read, hs]

/-- Exit status of a check command, over all outcomes of the two network calls. -/
theorem check_code (rpc : jsonrpc2.Reply systemHealth) (rc : Bool)
    (metrics : Except error http.Response) :
    ((Go.run (testJSONRPC rpc rc >>= fun _ => testPrometheus metrics)).code = 0 ↔
        rpc.err = none ∧ (rpc.r.IsSyncing && rc) = false ∧
          ∃ status body, metrics = Except.ok ⟨status, Except.ok body⟩ ∧ status < 300)
    ∧ ((Go.run (testJSONRPC rpc rc >>= fun _ => testPrometheus metrics)).code = 0 ∨
        (Go.run (testJSONRPC rpc rc >>= fun _ => testPrometheus metrics)).code = 1) := by
  obtain ⟨err, r⟩ := rpc
  cases err with
  | some e => simp [check_rpc_error]
  | none =>
    by_cases hs : (r.IsSyncing && rc) = false
    · rcases metrics with err | ⟨status, err2 | body⟩
      · simp [check_get_error r rc hs]
      · simp [check_read_error r rc hs]
      · by_cases hst : status > 299
        · have : ¬ status < 300 := by omega
          simp [check_bad_status r rc hs status body hst, hs, this]
        · have : status < 300 := by omega
          simp [check_pass r rc hs status body hst, hs, this]
    · obtain ⟨s, pe, sh⟩ := r
      have h1 : s = true ∧ rc = true := by simpa using hs
      obtain ⟨rfl, rfl⟩ := h1
      simp [check_syncing]

/-- Wrong number of arguments: usage text, exit status 1, no network call. -/
theorem run_wrong_count (prog : String) (rest : List String) (h : (prog :: rest).length ≠ 2)
    (rpc : jsonrpc2.Reply systemHealth) (metrics : Except error http.Response) :
    run (prog :: rest) rpc metrics
      = ⟨1, fmt.Sprintf helpFormat [fmt.Operand.string prog], []⟩ := by
  have h' : ¬ rest.length = 1 := by simpa using h
  simp [run, Go.run, main, bind, Go.bind, Go.index, printHelp, fmt.Printf, os.Exit, h']

/-- One argument that is none of the three commands: usage text, exit status 1,
no network call. -/
theorem run_unknown_command (prog cmd : String) (h1 : cmd ≠ "liveness")
    (h2 : cmd ≠ "readiness") (h3 : cmd ≠ "help")
    (rpc : jsonrpc2.Reply systemHealth) (metrics : Except error http.Response) :
    run [prog, cmd] rpc metrics
      = ⟨1, fmt.Sprintf helpFormat [fmt.Operand.string prog], []⟩ := by
  simp [run, Go.run, main, bind, Go.bind, Go.index, printHelp, fmt.Printf, os.Exit, pure,
    Go.pure, h1, h2, h3]

/-- The `help` command: usage text, exit status 0, no network call. -/
theorem run_help (prog : String)
    (rpc : jsonrpc2.Reply systemHealth) (metrics : Except error http.Response) :
    run [prog, "help"] rpc metrics
      = ⟨0, fmt.Sprintf helpFormat [fmt.Operand.string prog], []⟩ := by
  have h : run [prog, "help"] rpc metrics
      = ⟨0, "" ++ fmt.Sprintf helpFormat [fmt.Operand.string prog], []⟩ := rfl
  rw [h]
  simp

/-- The JSON-RPC check reads nothing of the reply but `err` and `r.IsSyncing`. -/
theorem testJSONRPC_congr (err : Option error) (r r' : systemHealth)
    (h : r.IsSyncing = r'.IsSyncing) (rc : Bool) :
    testJSONRPC ⟨err, r⟩ rc = testJSONRPC ⟨err, r'⟩ rc := by
  obtain ⟨s, pe, sh⟩ := r
  obtain ⟨s', pe', sh'⟩ := r'
  simp only at h
  subst h
  funext p
  rcases err with _ | ⟨b, t⟩
  · cases s <;> cases rc <;> rfl
  · cases b <;> rfl

/-- C1: the run with arguments `[prog, "liveness"]` exits 0 exactly when the
`system_health` call returned no error, the metrics GET connected, its body was
read without error and the status code is below 300, and exits 1 in every other
case; the value of `isSyncing` does not change the liveness exit code, and a
status of 503 gives exit 1 even when the RPC check passes. -/
theorem liveness_exit_code (prog : String) (rpc : jsonrpc2.Reply systemHealth)
    (metrics : Except error http.Response) :
    ((run [prog, "liveness"] rpc metrics).code = 0 ↔
        rpc.err = none ∧
          ∃ status body, metrics = Except.ok ⟨status, Except.ok body⟩ ∧ status < 300)
    ∧ ((run [prog, "liveness"] rpc metrics).code = 0 ∨
        (run [prog, "liveness"] rpc metrics).code = 1)
    ∧ (∀ syncing : Bool,
        (run [prog, "liveness"] ⟨rpc.err, { rpc.r with IsSyncing := syncing }⟩ metrics).code
          = (run [prog, "liveness"] rpc metrics).code)
    ∧ (∀ (r : systemHealth) (body : Except error String),
        (run [prog, "liveness"] ⟨none, r⟩ (Except.ok ⟨503, body⟩)).code = 1) := by
  have key : ∀ rpc' : jsonrpc2.Reply systemHealth, ∀ metrics' : Except error http.Response,
      ((run [prog, "liveness"] rpc' metrics').code = 0 ↔
        rpc'.err = none ∧
          ∃ status body, metrics' = Except.ok ⟨status, Except.ok body⟩ ∧ status < 300)
      ∧ ((run [prog, "liveness"] rpc' metrics').code = 0 ∨
          (run [prog, "liveness"] rpc' metrics').code = 1) := by
    intro rpc' metrics'
    rw [run_liveness]
    simpa using check_code rpc' false metrics'
  refine ⟨(key rpc metrics).1, (key rpc metrics).2, ?_, ?_⟩
  · intro syncing
    have h1 := key ⟨rpc.err, { rpc.r with IsSyncing := syncing }⟩ metrics
    have h2 := key rpc metrics
    by_cases hc : (run [prog, "liveness"] rpc metrics).code = 0
    · rw [hc]
      exact h1.1.2 (h2.1.1 hc)
    · have hn : ¬ (run [prog, "liveness"] ⟨rpc.err, { rpc.r with IsSyncing := syncing }⟩
          metrics).code = 0 := fun h => hc (h2.1.2 (h1.1.1 h))
      rcases h1.2 with h | h
      · exact absurd h hn
      · rcases h2.2 with h' | h'
        · exact absurd h' hc
        · rw [h, h']
  · intro r body
    have h := key ⟨none, r⟩ (Except.ok ⟨503, body⟩)
    rcases h.2 with h0 | h1
    · obtain ⟨_, status, body', heq, hlt⟩ := h.1.1 h0
      injection heq with heq
      injection heq with hst _
      omega
    · exact h1

/-- C2: the run with arguments `[prog, "readiness"]` exits 0 exactly when the
liveness run against the same outcomes exits 0 and `isSyncing` is false.  When
`isSyncing` is true and everything else passes, liveness exits 0 and readiness
exits 1; when `isSyncing` is false the two modes give the same result (exit
code, printed output and effects). -/
theorem readiness_iff_liveness_and_not_syncing (prog : String)
    (rpc : jsonrpc2.Reply systemHealth) (metrics : Except error http.Response) :
    ((run [prog, "readiness"] rpc metrics).code = 0 ↔
        (run [prog, "liveness"] rpc metrics).code = 0 ∧ rpc.r.IsSyncing = false)
    ∧ ((run [prog, "readiness"] rpc metrics).code = 0 ∨
        (run [prog, "readiness"] rpc metrics).code = 1)
    ∧ (∀ (peers : float64) (shp : Bool) (status : Int) (body : String), status < 300 →
        (run [prog, "liveness"] ⟨none, ⟨true, peers, shp⟩⟩
            (Except.ok ⟨status, Except.ok body⟩)).code = 0 ∧
        (run [prog, "readiness"] ⟨none, ⟨true, peers, shp⟩⟩
            (Except.ok ⟨status, Except.ok body⟩)).code = 1)
    ∧ (rpc.r.IsSyncing = false →
        run [prog, "readiness"] rpc metrics = run [prog, "liveness"] rpc metrics) := by
  refine ⟨?_, ?_, ?_, ?_⟩
  · rw [run_readiness, run_liveness, (check_code rpc true metrics).1,
      (check_code rpc false metrics).1]
    simp only [Bool.and_true, Bool.and_false]
    tauto
  · rw [run_readiness]
    exact (check_code rpc true metrics).2
  · intro peers shp status body hlt
    have hst : ¬ status > 299 := by omega
    rw [run_readiness, run_liveness, check_syncing,
      check_pass ⟨true, peers, shp⟩ false rfl status body hst]
    exact ⟨rfl, rfl⟩
  · intro hs
    obtain ⟨err, s, pe, sh⟩ := rpc
    simp only at hs
    subst hs
    rw [run_readiness, run_liveness]
    cases err <;> rfl

/-- C3: for every non-empty argument vector with a wrong argument count, or with
one argument that is none of `help`, `liveness`, `readiness`, the prober prints
exactly the usage text with `args[0]` as the program name, exits with status 1
and performs no network call. -/
theorem usage_on_malformed_invocation (prog : String) (rest : List String)
    (hbad : (prog :: rest).length ≠ 2 ∨
      ((prog :: rest).length = 2 ∧ (prog :: rest)[1]? ≠ some "help" ∧
        (prog :: rest)[1]? ≠ some "liveness" ∧ (prog :: rest)[1]? ≠ some "readiness"))
    (rpc : jsonrpc2.Reply systemHealth) (metrics : Except error http.Response) :
    run (prog :: rest) rpc metrics
      = ⟨1, "Use:\n    " ++ prog ++ " [command]\n    Commands:\n    * help: print this help\n    * liveness: return 0 if localhost polymesh has both the RPC (9933) and prometheus (9615) ports open and responsive, 1 otherwise\n    * readiness: return 0 if liveness check passes and the node is not syncing, 1 otherwise\n    ",
          []⟩ := by
  rw [← sprintf_help]
  rcases hbad with h | ⟨hlen, h3, h1, h2⟩
  · exact run_wrong_count prog rest h rpc metrics
  · match rest, hlen, h1, h2, h3 with
    | [cmd], _, h1, h2, h3 =>
      exact run_unknown_command prog cmd (by simpa using h1) (by simpa using h2)
        (by simpa using h3) rpc metrics

/-- The invocation `[prog, "help", "x"]` has a wrong argument count: usage text and
exit status 1. -/
theorem usage_on_malformed_invocation_witness :
    run ["health-check", "help", "x"] ⟨none, ⟨false, 3, true⟩⟩
        (Except.ok ⟨200, Except.ok ""⟩)
      = ⟨1, "Use:\n    " ++ "health-check" ++ " [command]\n    Commands:\n    * help: print this help\n    * liveness: return 0 if localhost polymesh has both the RPC (9933) and prometheus (9615) ports open and responsive, 1 otherwise\n    * readiness: return 0 if liveness check passes and the node is not syncing, 1 otherwise\n    ",
          []⟩ :=
  usage_on_malformed_invocation "health-check" ["help", "x"] (Or.inl (by decide))
    ⟨none, ⟨false, 3, true⟩⟩ (Except.ok ⟨200, Except.ok ""⟩)

/-- C4: for every program name and every outcome of the two network calls, the
run with arguments `[p, "help"]` prints the usage text, exits with status 0 and
performs no network call. -/
theorem help_exits_zero (p : String) (rpc : jsonrpc2.Reply systemHealth)
    (metrics : Except error http.Response) :
    run [p, "help"] rpc metrics
      = ⟨0, "Use:\n    " ++ p ++ " [command]\n    Commands:\n    * help: print this help\n    * liveness: return 0 if localhost polymesh has both the RPC (9933) and prometheus (9615) ports open and responsive, 1 otherwise\n    * readiness: return 0 if liveness check passes and the node is not syncing, 1 otherwise\n    ",
          []⟩ := by
  rw [← sprintf_help]
  exact run_help p rpc metrics

/-- C5: for liveness and readiness alike, when the `system_health` call returns an
error the run exits 1 after printing the diagnostic of its error class, the
metrics GET is never issued, and the result is the same for every outcome of the
metrics endpoint. -/
theorem rpc_error_short_circuits (prog cmd : String)
    (hcmd : cmd = "liveness" ∨ cmd = "readiness") (e : error) (r : systemHealth)
    (metrics : Except error http.Response) :
    run [prog, cmd] ⟨some e, r⟩ metrics
        = ⟨1, (if e.isJsonrpc2Error then "Error checking jsonrpc port. "
                else "Error checking jsonrpc port! ") ++ e.text ++ "\n",
            [Event.jsonrpcRequest "http://localhost:9933" "system_health" []]⟩
    ∧ (∀ url, Event.httpGet url ∉ (run [prog, cmd] ⟨some e, r⟩ metrics).events)
    ∧ (∀ metrics', run [prog, cmd] ⟨some e, r⟩ metrics' = run [prog, cmd] ⟨some e, r⟩ metrics) := by
  have key : ∀ m, run [prog, cmd] ⟨some e, r⟩ m
      = ⟨1, (if e.isJsonrpc2Error then "Error checking jsonrpc port. "
              else "Error checking jsonrpc port! ") ++ e.text ++ "\n",
          [Event.jsonrpcRequest "http://localhost:9933" "system_health" []]⟩ := by
    intro m
    rcases hcmd with rfl | rfl
    · rw [run_liveness, check_rpc_error]
    · rw [run_readiness, check_rpc_error]
  refine ⟨key metrics, ?_, ?_⟩
  · intro url
    rw [key metrics]
    simp
  · intro metrics'
    rw [key metrics, key metrics']

/-- A readiness run against a refused JSON-RPC connection and a healthy metrics
endpoint. -/
theorem rpc_error_short_circuits_witness :
    run ["health-check", "readiness"]
        ⟨some ⟨false, "connection refused"⟩, ⟨false, 0, false⟩⟩
        (Except.ok ⟨200, Except.ok ""⟩)
      = ⟨1, "Error checking jsonrpc port! connection refused\n",
          [Event.jsonrpcRequest "http://localhost:9933" "system_health" []]⟩ :=
  (rpc_error_short_circuits "health-check" "readiness" (Or.inr rfl)
    ⟨false, "connection refused"⟩ ⟨false, 0, false⟩ (Except.ok ⟨200, Except.ok ""⟩)).1

/-- C10: runs whose `system_health` results agree on `isSyncing` and differ in
`peers` and `shouldHavePeers` give the same result, for every argument vector and
every metrics outcome. -/
theorem peers_ignored (args : List String) (err : Option error) (syncing : Bool)
    (peers peers' : float64) (shp shp' : Bool) (metrics : Except error http.Response) :
    run args ⟨err, ⟨syncing, peers, shp⟩⟩ metrics
      = run args ⟨err, ⟨syncing, peers', shp'⟩⟩ metrics := by
  have h := testJSONRPC_congr err ⟨syncing, peers, shp⟩ ⟨syncing, peers', shp'⟩ rfl
  simp only [run, main, h]

/-- C9, as the code has it: for every non-empty argument vector and every outcome
of the two network calls, the prober ends with exit status 0 or 1, and no indexing
of the argument vector is out of range. -/
theorem exit_code_zero_or_one (args : List String) (hne : args ≠ [])
    (rpc : jsonrpc2.Reply systemHealth) (metrics : Except error http.Response) :
    ((run args rpc metrics).code = 0 ∨ (run args rpc metrics).code = 1)
    ∧ ∀ q, main args rpc metrics { stdout := "", events := [] } ≠ Outcome.panicked q := by
  have hcode : (run args rpc metrics).code = 0 ∨ (run args rpc metrics).code = 1 := by
    match args, hne with
    | [prog], _ => right; rw [run_wrong_count prog [] (by simp)]
    | prog :: _ :: c :: rest, _ =>
      right; rw [run_wrong_count prog _ (by simp)]
    | [prog, cmd], _ =>
      by_cases h1 : cmd = "liveness"
      · subst h1
        rw [run_liveness]
        exact (check_code rpc false metrics).2
      · by_cases h2 : cmd = "readiness"
        · subst h2
          rw [run_readiness]
          exact (check_code rpc true metrics).2
        · by_cases h3 : cmd = "help"
          · subst h3
            left; rw [run_help]
          · right; rw [run_unknown_command prog cmd h1 h2 h3]
  refine ⟨hcode, fun q hq => ?_⟩
  have h2 : (run args rpc metrics).code = 2 := by
    simp [run, Go.run, hq]
  rcases hcode with h | h <;> rw [h] at h2 <;> exact absurd h2 (by decide)

/-- A readiness run of a synced node with a healthy metrics endpoint exits 0. -/
theorem exit_code_zero_or_one_witness :
    ((run ["health-check", "readiness"] ⟨none, ⟨false, 3, true⟩⟩
        (Except.ok ⟨200, Except.ok ""⟩)).code = 0
      ∨ (run ["health-check", "readiness"] ⟨none, ⟨false, 3, true⟩⟩
        (Except.ok ⟨200, Except.ok ""⟩)).code = 1)
    ∧ ∀ q, main ["health-check", "readiness"] ⟨none, ⟨false, 3, true⟩⟩
        (Except.ok ⟨200, Except.ok ""⟩) { stdout := "", events := [] } ≠ Outcome.panicked q :=
  exit_code_zero_or_one ["health-check", "readiness"] (by decide) ⟨none, ⟨false, 3, true⟩⟩
    (Except.ok ⟨200, Except.ok ""⟩)

/-- C9, as stated, fails: with an empty argument vector `args[0]` is out of range,
the prober panics and the process ends with exit status 2. -/
theorem empty_args_counterexample :
    (run [] ⟨none, ⟨false, 3, true⟩⟩ (Except.ok ⟨200, Except.ok ""⟩)).code = 2
    ∧ main [] ⟨none, ⟨false, 3, true⟩⟩ (Except.ok ⟨200, Except.ok ""⟩)
        { stdout := "", events := [] } = Outcome.panicked { stdout := "", events := [] } := by
  decide

end HealthCheck

/-! ## Claims about the Key Rotator -/

namespace RotateKeys

theorem run_ok (s : String) :
    run ⟨none, s⟩
      = ⟨0, s ++ "\n", [Event.jsonrpcRequest "http://localhost:9933" "author_rotateKeys" []]⟩ := by
  have h : run ⟨none, s⟩
      = ⟨0, "" ++ s ++ "\n",
          [Event.jsonrpcRequest "http://localhost:9933" "author_rotateKeys" []]⟩ := rfl
  rw [h]
  simp

theorem run_error (e : error) (r : String) :
    run ⟨some e, r⟩
      = ⟨1, (if e.isJsonrpc2Error then "Error checking jsonrpc port. "
              else "Error checking jsonrpc port! ") ++ e.text ++ "\n",
          [Event.jsonrpcRequest "http://localhost:9933" "author_rotateKeys" []]⟩ := by
  obtain ⟨b, t⟩ := e
  cases b
  · have h : run ⟨some ⟨false, t⟩, r⟩
        = ⟨1, "" ++ fmt.Sprintf "Error checking jsonrpc port! %v\n"
                [fmt.Operand.error (some ⟨false, t⟩)],
            [Event.jsonrpcRequest "http://localhost:9933" "author_rotateKeys" []]⟩ := rfl
    rw [h, sprintf_jsonrpc_bang]
    simp
  · have h : run ⟨some ⟨true, t⟩, r⟩
        = ⟨1, "" ++ fmt.Sprintf "Error checking jsonrpc port. %v\n"
                [fmt.Operand.error (some ⟨true, t⟩)],
            [Event.jsonrpcRequest "http://localhost:9933" "author_rotateKeys" []]⟩ := rfl
    rw [h, sprintf_jsonrpc_dot]
    simp

/-- C6: for every string `s` returned by `author_rotateKeys` with no error, the
Key Rotator prints exactly `s` and a newline and exits with status 0; with
`s = "0xabc123"` the output is `"0xabc123\n"`. -/
theorem rotate_keys_prints_result (s : String) :
    (run ⟨none, s⟩).stdout = s ++ "\n" ∧ (run ⟨none, s⟩).code = 0
    ∧ (run ⟨none, "0xabc123"⟩).stdout = "0xabc123\n" := by
  rw [run_ok]
  exact ⟨rfl, rfl, by decide⟩

/-- C7, as the code has it: the Key Rotator exits 1 exactly when the
`author_rotateKeys` call returned an error, whatever its class; then its output is
the diagnostic of the error class followed by the text of the error and a
newline, so it contains the text of the error, it is one line exactly when the
text of the error has no line break, and it is the same whatever the result
variable holds: the result string is not printed. -/
theorem rotate_keys_error_exit (rpc : jsonrpc2.Reply String) :
    ((run rpc).code = 1 ↔ rpc.err ≠ none)
    ∧ ∀ e, rpc.err = some e →
        (run rpc).code = 1
        ∧ (run rpc).stdout
            = (if e.isJsonrpc2Error then "Error checking jsonrpc port. "
                else "Error checking jsonrpc port! ") ++ e.text ++ "\n"
        ∧ e.text.data <:+: (run rpc).stdout.data
        ∧ (oneLine (run rpc).stdout = true ↔ '\n' ∉ e.text.data)
        ∧ ∀ r, (run ⟨some e, r⟩).stdout = (run rpc).stdout := by
  obtain ⟨err, r⟩ := rpc
  cases err with
  | none =>
    rw [run_ok]
    simp
  | some e =>
    refine ⟨by rw [run_error]; simp, ?_⟩
    intro e' he
    cases he
    refine ⟨by rw [run_error], by rw [run_error], ?_, ?_, fun r' => by rw [run_error, run_error]⟩
    · rw [run_error]
      exact ⟨(if e.isJsonrpc2Error then "Error checking jsonrpc port. "
        else "Error checking jsonrpc port! ").data, "\n".data, by simp [String.data_append]⟩
    · rw [run_error]
      cases e.isJsonrpc2Error <;> exact oneLine_terminated_iff _ _ (by decide) (by decide)

/-- A `Method not found` error object from the node: exit status 1 and the one
line `Error checking jsonrpc port. Method not found`. -/
theorem rotate_keys_error_exit_witness :
    (run ⟨some ⟨true, "Method not found"⟩, ""⟩).code = 1
    ∧ (run ⟨some ⟨true, "Method not found"⟩, ""⟩).stdout
        = "Error checking jsonrpc port. Method not found\n"
    ∧ oneLine (run ⟨some ⟨true, "Method not found"⟩, ""⟩).stdout = true :=
  have h := (rotate_keys_error_exit ⟨some ⟨true, "Method not found"⟩, ""⟩).2
    ⟨true, "Method not found"⟩ rfl
  ⟨h.1, h.2.1.trans (by decide), h.2.2.2.1.2 (by decide)⟩

/-- C7, as stated, fails: when the text of the error has a line break in it, the
Key Rotator exits 1 and prints two lines, not one diagnostic line. -/
theorem rotate_keys_two_lines_counterexample :
    (run ⟨some ⟨false, "EOF\nretry"⟩, ""⟩).code = 1
    ∧ (run ⟨some ⟨false, "EOF\nretry"⟩, ""⟩).stdout
        = "Error checking jsonrpc port! EOF\nretry\n"
    ∧ oneLine (run ⟨some ⟨false, "EOF\nretry"⟩, ""⟩).stdout = false := by
  decide

end RotateKeys

end Polymesh
